import Mathlib

/-!
# Gas.zip deposit calldata decoder — verification development

Shallow embedding of `src/gaszip-decode.ts` (the decoding core: hex codec,
chain registry, address/chain-id splitter, prefix dispatch) and proofs of the
specification claims about it.

Modelling conventions:
* JS `Uint8Array` values are `List Nat` with entries `< 256` (the hex parser
  only ever produces such entries).
* JS strings are `List Char` at the decoder input (codepoint sequence; JS
  UTF-16 length and codepoint count coincide on BMP inputs, which covers all
  hex characters), and Lean `String` for produced display strings.
* Thrown `Error`s become `Except DecodeErr`; each throw site is mapped to the
  spec's error taxonomy variant named in a comment at the site.
* The external base58 / Ripple-base58 / bech32 encoder libraries are not part
  of the repository; the decoder only calls them inside `try`/`catch`. They
  are modelled as an oracle record `Encoders` whose functions return
  `Option String`, `none` standing for a thrown encoding exception.
-/

namespace GasZip

/-- Result kind tag, mirroring the `type` field of `GasZipDecoded`. -/
inductive GKind where
  | SELF | EVM | BASE58 | MOVE | XRP | INITIA | UNKNOWN
deriving DecidableEq, Repr

/-- Error taxonomy (spec §7); each variant corresponds to the `throw` sites of
`gaszip-decode.ts` named in comments where they are raised. -/
inductive DecodeErr where
  | InvalidHexEncoding
  | EmptyCalldata
  | AddressLengthMismatch
  | MalformedChainTail
deriving DecidableEq, Repr

/-- `destination` record of `GasZipDecoded`: every field optional, `none`
mirroring a JS field that is absent/`undefined`. -/
structure Destination where
  evm : Option String := none
  move : Option String := none
  base58 : Option String := none
  base58Hex : Option String := none
  solanaLike : Option Bool := none
  xrp : Option String := none
  initia : Option String := none
  initiaHex : Option String := none
deriving DecidableEq, Repr

/-- One entry of the decoded `chainIds` array: the raw id plus the registry
annotation (`GASZIP_CHAINS[id]?.name`, `GASZIP_CHAINS[id]?.nativeId`). -/
structure ChainIdEntry where
  id : Nat
  name : Option String := none
  nativeId : Option Nat := none
deriving DecidableEq, Repr

/-- The decoded result record (`GasZipDecoded` in the source). The source's
`prefix` field (a 2-hex-digit string) is named `prefixHex` here. -/
structure GasZipDecoded where
  type : GKind
  raw : List Char
  prefixHex : String
  destination : Destination
  chainIds : List ChainIdEntry
  leftoversHex : Option String := none
deriving DecidableEq, Repr

/-- `GASZIP_CHAINS`: the module-level registry literal of the source,
transcribed entry for entry as `(id, name, nativeId)`. -/
def GASZIP_CHAINS : List (Nat × String × Nat) := [
  (110, "Abstract", 2741),
  (493, "Adventure Layer", 9988),
  (261, "AILayer", 2649),
  (297, "Aleph Zero EVM", 41455),
  (233, "AlienX", 10241024),
  (128, "Ancient8", 888888888),
  (445, "Animechain", 69000),
  (296, "ApeChain", 33139),
  (401, "AppChain", 466),
  (348, "Aptos", 1000011),
  (53, "Arbitrum Nova", 42170),
  (57, "Arbitrum One", 42161),
  (40, "Astar", 592),
  (62, "Aurora", 1313161554),
  (15, "Avalanche", 43114),
  (278, "B3", 8333),
  (292, "Bahamut", 5165),
  (54, "Base Mainnet", 8453),
  (479, "Battle for Blockchain", 3920262608331171),
  (24, "Beam", 4337),
  (143, "Berachain", 80094),
  (138, "BEVM", 11501),
  (85, "BiFrost", 3068),
  (147, "Bitlayer", 200901),
  (494, "Bittensor EVM", 964),
  (96, "Blast", 81457),
  (150, "BOB", 60808),
  (411, "Boba BNB", 56288),
  (140, "Boba ETH", 288),
  (496, "Botanix", 3637),
  (14, "BSC Mainnet", 56),
  (148, "B² Network", 223),
  (126, "Callisto", 820),
  (502, "CAMP", 484),
  (21, "Celo", 42220),
  (333, "CheeseChain", 383353),
  (458, "Civitia", 1000024),
  (357, "Codex", 81224),
  (65, "ConFlux", 1030),
  (498, "Converge", 432),
  (416, "Conwai", 668668),
  (34, "CoreDAO", 1116),
  (391, "Corn", 21000000),
  (36, "Cronos", 25),
  (276, "Cronos zkEVM", 388),
  (135, "Cyber", 7560),
  (300, "DeBank", 20240603),
  (133, "Degen", 666666666),
  (365, "Derive", 957),
  (63, "Dexalot", 432204),
  (46, "Dogechain", 2000),
  (134, "Dymension", 1100),
  (459, "Echelon", 1000025),
  (328, "Eclipse", 1000002),
  (489, "EDU", 41923),
  (474, "Embr", 2598901095158506),
  (302, "Endurance", 648),
  (142, "EOS EVM", 17777),
  (255, "Ethereum", 1),
  (346, "Etherlink", 42793),
  (364, "Ethernity", 183),
  (71, "ETHW", 10001),
  (491, "Everclear", 25327),
  (39, "EVMOS", 9001),
  (403, "ExSat", 7200),
  (20, "Fantom", 250),
  (354, "Flame", 253368190),
  (38, "Flare", 14),
  (437, "Flow EVM", 747),
  (304, "Fluence", 9999999),
  (383, "Form", 478),
  (267, "Forma", 984122),
  (10, "Fraxtal", 252),
  (339, "Fuel", 1000006),
  (31, "Fuse", 122),
  (431, "G7", 2187),
  (16, "Gnosis", 100),
  (440, "GOAT", 2345),
  (240, "Gravity", 1625),
  (247, "Ham", 5112),
  (66, "Harmony", 1666600000),
  (408, "Hashkey", 177),
  (397, "Hemi", 43111),
  (495, "Humanity", 6985385),
  (501, "Humanode", 5234),
  (132, "Hychain", 2911),
  (291, "HyperCore", 88778877),
  (430, "HyperEVM", 999),
  (95, "Immutable zkEVM", 13371),
  (480, "ING", 2780922216980457),
  (456, "Initia", 1000023),
  (78, "Injective EVM", 2525),
  (392, "Ink", 57073),
  (460, "INRT", 1000026),
  (461, "Intergaze", 1000027),
  (67, "IoTeX", 4689),
  (33, "Kaia", 8217),
  (485, "Katana", 747474),
  (22, "Kava", 2222),
  (90, "KCC", 321),
  (478, "LayerEdge", 4207),
  (442, "Lens", 232),
  (79, "Lightlink", 1890),
  (59, "Linea", 59144),
  (238, "Lisk", 1135),
  (87, "Lukso", 42),
  (332, "Lumia Prism", 994873017),
  (100, "Lumio", 8866),
  (60, "Manta", 169),
  (13, "Mantle Mainnet", 5000),
  (294, "Matchain", 698),
  (9, "Merlin", 4200),
  (144, "Metal", 1750),
  (26, "Meter", 82),
  (30, "Metis", 1088),
  (499, "Mezo", 31612),
  (483, "MilkyWay", 1000033),
  (407, "Mind", 228),
  (253, "Mint", 185),
  (503, "Mitosis", 124816),
  (73, "Mode", 34443),
  (28, "Moonbeam", 1284),
  (29, "Moonriver", 1285),
  (340, "Morph", 2818),
  (97, "Muster Network", 4078),
  (92, "Neon EVM", 245022934),
  (477, "Nibiru", 6900),
  (259, "Numbers", 10507),
  (23, "Oasis Emerald", 42262),
  (69, "Oasys", 248),
  (490, "OEV API3", 4913),
  (35, "OKX", 66),
  (492, "Onyx", 80888),
  (55, "OP Mainnet", 10),
  (58, "opBNB", 204),
  (236, "Optopia", 62050),
  (74, "Orderly", 291),
  (423, "Peaq", 3338),
  (88, "PEGO", 20201022),
  (422, "Phala", 2035),
  (5, "PlatON", 210425),
  (450, "Plume", 98866),
  (17, "Polygon", 137),
  (52, "Polygon zkEVM", 1101),
  (367, "Polynomial", 8008),
  (448, "Powerloom V2", 7869),
  (378, "Prom", 227),
  (98, "Proof of Play Apex", 70700),
  (293, "Proof of Play Boss", 70701),
  (12, "Pulsechain", 369),
  (452, "R5 Testnet", 337),
  (298, "Race", 6805),
  (82, "Rari", 1380012617),
  (482, "Rave", 555110192329996),
  (149, "Redstone", 690),
  (466, "Rena Nuwa", 1000032),
  (234, "Reya", 1729),
  (396, "River", 550),
  (413, "Ronin", 2020),
  (254, "Rootstock", 30),
  (125, "RSS3", 12553),
  (295, "Saakuru", 7225878),
  (131, "Sanko", 1996),
  (6, "SatoshiVM", 3109),
  (246, "Sei", 1329),
  (443, "Settlus", 5371),
  (327, "Shape", 360),
  (455, "zkCandy", 320),
  (398, "Skate", 5050),
  (287, "Snaxchain", 2192),
  (245, "Solana", 501474),
  (504, "Somnia", 5031),
  (414, "Soneium", 1868),
  (389, "Sonic", 146),
  (410, "Soon Mainnet", 1000020),
  (484, "Sophon", 50104),
  (406, "Spotlight", 10058111),
  (64, "Step", 1234),
  (181, "Story", 1514),
  (347, "Sui", 1000010),
  (303, "Superposition", 55244),
  (366, "Superseed", 5330),
  (256, "Swan", 254),
  (385, "Swell", 1923),
  (19, "SX Network", 416),
  (137, "Syndicate Frame", 5101),
  (249, "Taiko", 167000),
  (47, "Telos", 40),
  (27, "Tenet", 1559),
  (258, "ThunderCore", 108),
  (75, "Tron", 1000001),
  (394, "U2U Solaris", 39),
  (362, "Unichain", 130),
  (419, "UNIT0", 88811),
  (488, "Vana", 1480),
  (395, "Vanar", 2040),
  (43, "Viction", 88),
  (301, "Vizing", 28518),
  (81, "Wemix", 1111),
  (269, "WorldChain", 480),
  (146, "X Layer", 196),
  (77, "XAI", 660279),
  (242, "XCHAIN", 94524),
  (420, "XDC", 50),
  (48, "XPLA", 37),
  (377, "XRP", 1000016),
  (487, "XRPL EVM", 1440000),
  (239, "Xterio", 2702128),
  (471, "Yominet EVM", 428962654539583),
  (481, "Zaar", 1335097526422335),
  (361, "ZERO", 543210),
  (94, "Zeta", 7000),
  (353, "Zircuit", 48900),
  (50, "zkFair", 42766),
  (136, "zkLink Nova", 810180),
  (41, "zkScroll", 534352),
  (51, "zkSync Era", 324),
  (56, "Zora", 7777777)
]

/-- JS object key lookup `GASZIP_CHAINS[id]` (keys are unique). -/
def chainLookup (id : Nat) : Option (String × Nat) :=
  GASZIP_CHAINS.lookup id

/-- `!!GASZIP_CHAINS[val]` — the registry membership test used by the
variable-length heuristic. -/
def isKnownChain (id : Nat) : Bool :=
  (chainLookup id).isSome

/-! ## Byte codec utilities -/

/-- `input.startsWith('0x')`: the first two characters are `0` and `x`. -/
def startsWith0x : List Char → Bool
  | c1 :: c2 :: _ => c1 = '0' ∧ c2 = 'x'
  | _ => false

/-- Value of a single hex digit character, `none` for a non-hex character. -/
def hexDigitVal (c : Char) : Option Nat :=
  if '0' ≤ c ∧ c ≤ '9' then some (c.toNat - '0'.toNat)
  else if 'a' ≤ c ∧ c ≤ 'f' then some (c.toNat - 'a'.toNat + 10)
  else if 'A' ≤ c ∧ c ≤ 'F' then some (c.toNat - 'A'.toNat + 10)
  else none

/-- JS `parseInt` whitespace (the common code points). -/
def jsWhitespace (c : Char) : Bool :=
  c = ' ' ∨ c = '\t' ∨ c = '\n' ∨ c = '\r' ∨ c = '\x0b' ∨ c = '\x0c' ∨ c = ' '

/-- The byte stored by `out[i] = parseInt(h.slice(i*2, i*2+2), 16)` for a
two-character slice `c1 c2`: JS `parseInt(_, 16)` skips leading whitespace and
an optional sign, parses the longest hex-digit run (`NaN` when empty), and the
`Uint8Array` store applies ToUint8 (`NaN ↦ 0`, negatives mod 256). A leading
`"0x"` slice parses as `NaN ↦ 0`, which coincides with the `d1 = 0` branch. -/
def parseIntByte (c1 c2 : Char) : Nat :=
  match hexDigitVal c1, hexDigitVal c2 with
  | some d1, some d2 => 16 * d1 + d2
  | some d1, none => d1
  | none, some d2 =>
    if jsWhitespace c1 ∨ c1 = '+' then d2
    else if c1 = '-' then (256 - d2) % 256
    else 0
  | none, none => 0

/-- The loop `for (i = 0; i < out.length; i++) out[i] = parseInt(...)` of
`hexToBytes`, pairing the (even-length) character list two at a time. -/
def hexPairsToBytes : List Char → List Nat
  | c1 :: c2 :: rest => parseIntByte c1 c2 :: hexPairsToBytes rest
  | _ => []

/-- `hexToBytes` (the `throw new Error('Invalid hex length')` maps to
`InvalidHexEncoding`). -/
def hexToBytes (hex : List Char) : Except DecodeErr (List Nat) :=
  let h := if startsWith0x hex then hex.drop 2 else hex
  if h.length % 2 ≠ 0 then .error .InvalidHexEncoding
  else .ok (hexPairsToBytes h)

/-- Lowercase hex digit character, `b.toString(16)` style. -/
def hexDigitChar (n : Nat) : Char :=
  if n < 10 then Char.ofNat ('0'.toNat + n) else Char.ofNat ('a'.toNat + (n - 10))

/-- `b.toString(16).padStart(2, '0')` for a byte `b < 256`. -/
def byteHexChars (b : Nat) : List Char :=
  [hexDigitChar (b / 16), hexDigitChar (b % 16)]

/-- `bytesToHex`. -/
def bytesToHex (bytes : List Nat) : String :=
  String.mk ('0' :: 'x' :: (bytes.map byteHexChars).flatten)

/-- `'0x' + b.toString(16).padStart(2, '0')` for the `prefix` display field. -/
def hexByteStr (b : Nat) : String :=
  String.mk ('0' :: 'x' :: byteHexChars b)

/-- `readU16BE`: `(bytes[offset] << 8) | bytes[offset + 1]`; an out-of-bounds
JS read yields `undefined`, which both `<<` and `|` coerce to `0`, hence
`getD _ 0`. -/
def readU16BE (bytes : List Nat) (off : Nat) : Nat :=
  (bytes.getD off 0) <<< 8 ||| bytes.getD (off + 1) 0

/-! ## Address/chain-id splitter -/

/-- Result record of `splitAddressAndChains`. The source's return type lists
an optional `leftovers` field, but no return statement ever sets it. -/
structure SplitResult where
  addressBytes : List Nat
  chainIds : List Nat
  leftovers : Option (List Nat) := none
deriving DecidableEq, Repr

/-- The fixed-length tail loop
`for (let i = 0; i < tail.length; i += 2) chainIds.push(readU16BE(tail, i))`,
expressed structurally: each step reads the 2-byte group at the front and
recurses on the rest (offset `i` advancing by 2). On an odd-length tail
(unreachable: callers check parity) the final group reads one byte past the
end as 0, exactly as `readU16BE` does. -/
def parseTail : List Nat → List Nat
  | [] => []
  | [a] => [a <<< 8 ||| 0]
  | a :: b :: rest => (a <<< 8 ||| b) :: parseTail rest

/-- The backward heuristic scan of `splitAddressAndChains`
(`while (end - 2 >= 1) { ... }`): `end - 2 >= 1` holds exactly when
`end = e + 3` for some `e ≥ 0`, so the loop is phrased structurally on that
shape; `readU16BE(body, end - 2)` is `readU16BE body (e + 1)`, and the two
decrements `end -= 2` give the recursive call at `e + 1`. Returns the final
`end` together with `chainIdsRev` in push order (not yet reversed). -/
def heuristicScan (body : List Nat) : Nat → List Nat → Nat × List Nat
  | e + 3, acc =>
    let val := readU16BE body (e + 1)
    let isKnown := isKnownChain val
    if isKnown = false ∧ 0 < acc.length then (e + 3, acc)
    else heuristicScan body (e + 1) (acc ++ [val])
  | e, acc => (e, acc)

/-- `splitAddressAndChains`. Throw sites: `'Calldata too short for expected
address length'` ↦ `AddressLengthMismatch`, `'Chain IDs tail must be a
multiple of 2 bytes'` ↦ `MalformedChainTail`. `body.slice(0, n)` is `take n`,
`body.slice(n)` is `drop n`. The `DEBUG_DECODER` logging is I/O-free of the
result and omitted. -/
def splitAddressAndChains (prefixByte : Nat) (body : List Nat) :
    Except DecodeErr SplitResult :=
  let fixedLen : Option Nat :=
    if prefixByte = 0x01 then some 0
    else if prefixByte = 0x02 then some 20
    else if prefixByte = 0x04 then some 32
    else if prefixByte = 0x06 then some 20
    else none
  match fixedLen with
  | some L =>
    if body.length < L then .error .AddressLengthMismatch
    else
      let addressBytes := body.take L
      let tail := body.drop L
      if tail.length % 2 ≠ 0 then .error .MalformedChainTail
      else .ok { addressBytes := addressBytes, chainIds := parseTail tail }
  | none =>
    if prefixByte = 0x03 ∧ 32 ≤ body.length ∧ (body.length - 32) % 2 = 0 then
      .ok { addressBytes := body.take 32, chainIds := parseTail (body.drop 32) }
    else
      let s := heuristicScan body body.length []
      .ok { addressBytes := body.take s.1, chainIds := s.2.reverse }

/-! ## Decoder -/

/-- Oracle for the external encoder libraries (`bs58.encode`,
`basex(XRPL_ALPHABET).encode`, `bech32.toWords` + `bech32.encode('init', ·)`);
`none` models a thrown encoding exception caught by the decoder's
`try`/`catch`. -/
structure Encoders where
  bs58encode : List Nat → Option String
  xrpb58encode : List Nat → Option String
  bech32initEncode : List Nat → Option String

/-- Encoders that fail on every input. -/
def trivialEncoders : Encoders :=
  { bs58encode := fun _ => none
    xrpb58encode := fun _ => none
    bech32initEncode := fun _ => none }

/-- The per-id annotation `(id) => ({ id, name: GASZIP_CHAINS[id]?.name,
nativeId: GASZIP_CHAINS[id]?.nativeId })` used on the splitter's output. -/
def annotateChainId (id : Nat) : ChainIdEntry :=
  { id := id
    name := (chainLookup id).map Prod.fst
    nativeId := (chainLookup id).map Prod.snd }

/-- `leftovers && leftovers.length ? bytesToHex(leftovers) : undefined`. -/
def leftoversHexOf : Option (List Nat) → Option String
  | some l => if l.length ≠ 0 then some (bytesToHex l) else none
  | none => none

/-- The byte-level part of `decodeGasZipCalldata` (everything after
`hexToBytes`): `'Empty calldata'` ↦ `EmptyCalldata`; the `'EVM address must
be 20 bytes'`, `'MOVE/FUEL address must be 32 bytes'`, `'Initia address
expected 20 bytes'` throws ↦ `AddressLengthMismatch`. -/
def decodeGasZipBytes (E : Encoders) (raw : List Char) (data : List Nat) :
    Except DecodeErr GasZipDecoded :=
  if data.length < 1 then .error .EmptyCalldata
  else
    let prefixByte := data.headD 0
    let body := data.drop 1
    match splitAddressAndChains prefixByte body with
    | .error e => .error e
    | .ok r =>
      let mapped := r.chainIds.map annotateChainId
      let prefixHex := hexByteStr prefixByte
      let leftHex : Option String := leftoversHexOf r.leftovers
      if prefixByte = 0x01 then
        .ok { type := .SELF, raw := raw, prefixHex := prefixHex,
              destination := {}, chainIds := mapped, leftoversHex := leftHex }
      else if prefixByte = 0x02 then
        if r.addressBytes.length ≠ 20 then .error .AddressLengthMismatch
        else
          .ok { type := .EVM, raw := raw, prefixHex := prefixHex,
                destination := { evm := some (bytesToHex r.addressBytes) },
                chainIds := mapped, leftoversHex := leftHex }
      else if prefixByte = 0x04 then
        if r.addressBytes.length ≠ 32 then .error .AddressLengthMismatch
        else
          .ok { type := .MOVE, raw := raw, prefixHex := prefixHex,
                destination := { move := some (bytesToHex r.addressBytes) },
                chainIds := mapped, leftoversHex := leftHex }
      else if prefixByte = 0x06 then
        if r.addressBytes.length ≠ 20 then .error .AddressLengthMismatch
        else
          .ok { type := .INITIA, raw := raw, prefixHex := prefixHex,
                destination := { initia := E.bech32initEncode r.addressBytes,
                                 initiaHex := some (bytesToHex r.addressBytes) },
                chainIds := mapped, leftoversHex := leftHex }
      else if prefixByte = 0x03 then
        .ok { type := .BASE58, raw := raw, prefixHex := prefixHex,
              destination := { base58 := some ((E.bs58encode r.addressBytes).getD "")
                               base58Hex := some (bytesToHex r.addressBytes)
                               solanaLike := some (r.addressBytes.length == 32) },
              chainIds := mapped, leftoversHex := leftHex }
      else if prefixByte = 0x05 then
        .ok { type := .XRP, raw := raw, prefixHex := prefixHex,
              destination := { xrp := some ((E.xrpb58encode r.addressBytes).getD "") },
              chainIds := mapped, leftoversHex := leftHex }
      else
        .ok { type := .UNKNOWN, raw := raw, prefixHex := prefixHex,
              destination := {}, chainIds := mapped, leftoversHex := leftHex }

/-- `decodeGasZipCalldata`: `assertHex` (throw `'Expected 0x-prefixed
even-length hex string'` ↦ `InvalidHexEncoding`; the `typeof` test is
vacuous in the typed model), then `hexToBytes`, then the byte-level decode.
Note `input.length % 2 !== 0` tests the length of the whole string, `0x`
included. -/
def decodeGasZipCalldata (E : Encoders) (input : List Char) :
    Except DecodeErr GasZipDecoded :=
  if startsWith0x input = true ∧ input.length % 2 = 0 then
    match hexToBytes input with
    | .error e => .error e
    | .ok data => decodeGasZipBytes E input data
  else .error .InvalidHexEncoding


/-! ## Spec-modelled comparison definitions -/

/-- Modelled from the spec: the input contract `^0x([0-9a-fA-F]{2})+$`
(spec §6). Used only to state what a *valid* hex input is; the code's own
validation is `decodeGasZipCalldata`'s guard. -/
def isHexDigitChar (c : Char) : Bool :=
  ('0' ≤ c ∧ c ≤ '9') ∨ ('a' ≤ c ∧ c ≤ 'f') ∨ ('A' ≤ c ∧ c ≤ 'F')

/-- Modelled from the spec: a valid input per the §6 contract. -/
def validHexInput : List Char → Bool
  | '0' :: 'x' :: rest =>
    rest.length ≠ 0 ∧ rest.length % 2 = 0 ∧ rest.all isHexDigitChar
  | _ => false

/-- Modelled from the spec (§4.4 Step 3 wording): the backward scan as the
spec phrases it — "while `end - 2 >= 1`: read `v`; if `v` is present in the
Chain Registry, OR no chain id has been accepted yet, accept and decrement
`end` by 2; otherwise stop". Phrased on `end = e + 3` exactly like
`heuristicScan`. -/
def specHeuristicScan (body : List Nat) : Nat → List Nat → Nat × List Nat
  | e + 3, acc =>
    let v := readU16BE body (e + 1)
    if isKnownChain v = true ∨ acc = [] then
      specHeuristicScan body (e + 1) (acc ++ [v])
    else (e + 3, acc)
  | e, acc => (e, acc)

/-- Modelled from the spec: `addressBytes = body[0:end]`, accumulator
reversed into left-to-right order. -/
def specVariableSplit (body : List Nat) : List Nat × List Nat :=
  let s := specHeuristicScan body body.length []
  (body.take s.1, s.2.reverse)

/-! ## Helper lemmas -/

theorem getD_add_two (a b : Nat) (l : List Nat) (n : Nat) :
    (a :: b :: l).getD (n + 2) 0 = l.getD n 0 := rfl

theorem readU16BE_zero (a b : Nat) (l : List Nat) :
    readU16BE (a :: b :: l) 0 = a <<< 8 ||| b := rfl

theorem readU16BE_add_two (a b : Nat) (l : List Nat) (n : Nat) :
    readU16BE (a :: b :: l) (n + 2) = readU16BE l n := rfl

theorem getD_cons_one (a : Nat) (l : List Nat) (n : Nat) :
    (a :: l).getD (n + 1) 0 = l.getD n 0 := rfl

theorem getD_drop (l : List Nat) (n i : Nat) :
    (l.drop n).getD i 0 = l.getD (n + i) 0 := by
  induction l generalizing n with
  | nil => simp [List.getD]
  | cons a t ih =>
    cases n with
    | zero => simp
    | succ m =>
      have h1 : m + 1 + i = (m + i) + 1 := by omega
      rw [List.drop_succ_cons, ih, h1, getD_cons_one]

theorem readU16BE_drop (l : List Nat) (n i : Nat) :
    readU16BE (l.drop n) i = readU16BE l (n + i) := by
  simp [readU16BE, getD_drop, Nat.add_assoc]

theorem parseTail_length : ∀ t : List Nat, (parseTail t).length = (t.length + 1) / 2
  | [] => rfl
  | [_] => by norm_num [parseTail]
  | a :: b :: rest => by
    simp only [parseTail, List.length_cons, parseTail_length rest]
    omega

theorem parseTail_getElem? : ∀ (t : List Nat) (i : Nat), 2 * i + 1 < t.length →
    (parseTail t)[i]? = some (readU16BE t (2 * i))
  | a :: b :: rest, 0, _ => by
    simp [parseTail, readU16BE_zero]
  | a :: b :: rest, i + 1, h => by
    have ih := parseTail_getElem? rest i (by simp at h; omega)
    have h2 : 2 * (i + 1) = 2 * i + 2 := by ring
    simp only [parseTail, List.getElem?_cons_succ, h2, readU16BE_add_two]
    exact ih
  | [], i, h => by simp at h
  | [a], 0, h => by simp at h
  | [a], i + 1, h => by simp at h

theorem heuristicScan_succ3 (body : List Nat) (e : Nat) (acc : List Nat) :
    heuristicScan body (e + 3) acc =
      if isKnownChain (readU16BE body (e + 1)) = false ∧ 0 < acc.length
      then (e + 3, acc)
      else heuristicScan body (e + 1) (acc ++ [readU16BE body (e + 1)]) := rfl

theorem heuristicScan_lt3 (body : List Nat) (e : Nat) (acc : List Nat)
    (h : e < 3) : heuristicScan body e acc = (e, acc) := by
  interval_cases e <;> rfl

theorem specHeuristicScan_succ3 (body : List Nat) (e : Nat) (acc : List Nat) :
    specHeuristicScan body (e + 3) acc =
      if isKnownChain (readU16BE body (e + 1)) = true ∨ acc = []
      then specHeuristicScan body (e + 1) (acc ++ [readU16BE body (e + 1)])
      else (e + 3, acc) := rfl

theorem specHeuristicScan_lt3 (body : List Nat) (e : Nat) (acc : List Nat)
    (h : e < 3) : specHeuristicScan body e acc = (e, acc) := by
  interval_cases e <;> rfl

theorem heuristicScan_eq_spec (body : List Nat) :
    ∀ (e : Nat) (acc : List Nat), heuristicScan body e acc = specHeuristicScan body e acc
  | 0, acc => rfl
  | 1, acc => rfl
  | 2, acc => rfl
  | e + 3, acc => by
    rw [heuristicScan_succ3, specHeuristicScan_succ3]
    cases hk : isKnownChain (readU16BE body (e + 1)) with
    | false =>
      cases acc with
      | nil => simp [hk, heuristicScan_eq_spec body (e + 1)]
      | cons a t => simp [hk]
    | true => simp [hk, heuristicScan_eq_spec body (e + 1)]

theorem heuristicScan_fst_le (body : List Nat) :
    ∀ (e : Nat) (acc : List Nat), (heuristicScan body e acc).1 ≤ e
  | 0, _ => Nat.le_refl _
  | 1, _ => Nat.le_refl _
  | 2, _ => Nat.le_refl _
  | e + 3, acc => by
    rw [heuristicScan_succ3]
    split
    · exact Nat.le_refl _
    · exact Nat.le_trans (heuristicScan_fst_le body (e + 1) _) (by omega)

theorem heuristicScan_fst_pos (body : List Nat) :
    ∀ (e : Nat) (acc : List Nat), 1 ≤ e → 1 ≤ (heuristicScan body e acc).1
  | 0, _, h => absurd h (by omega)
  | 1, _, _ => Nat.le_refl _
  | 2, acc, _ => by rw [heuristicScan_lt3 body 2 acc (by omega)]; norm_num
  | e + 3, acc, _ => by
    rw [heuristicScan_succ3]
    split
    · simp
    · exact heuristicScan_fst_pos body (e + 1) _ (by omega)

theorem heuristicScan_tail_known (body : List Nat) :
    ∀ (e : Nat) (acc : List Nat),
      (∀ v ∈ acc.tail, isKnownChain v = true) →
      ∀ v ∈ (heuristicScan body e acc).2.tail, isKnownChain v = true
  | 0, acc, h => h
  | 1, acc, h => h
  | 2, acc, h => h
  | e + 3, acc, h => by
    rw [heuristicScan_succ3]
    split
    · exact h
    · rename_i hcond
      apply heuristicScan_tail_known body (e + 1)
      rcases acc with _ | ⟨a, t⟩
      · simp
      · intro x hx
        have hx' : x ∈ t ∨ x = readU16BE body (e + 1) := by
          simpa using hx
        rcases hx' with hx' | rfl
        · exact h x hx'
        · cases hk : isKnownChain (readU16BE body (e + 1)) with
          | false => exact absurd ⟨hk, by simp⟩ hcond
          | true => rfl

theorem split_fixed (p L : Nat)
    (hpL : (p, L) ∈ [((0x01 : Nat), (0 : Nat)), (0x02, 20), (0x04, 32), (0x06, 20)])
    (body : List Nat) :
    splitAddressAndChains p body =
      if body.length < L then .error .AddressLengthMismatch
      else if (body.length - L) % 2 ≠ 0 then .error .MalformedChainTail
      else .ok { addressBytes := body.take L, chainIds := parseTail (body.drop L) } := by
  fin_cases hpL <;> simp [splitAddressAndChains]

theorem split_fast (body : List Nat) (h32 : 32 ≤ body.length)
    (hev : (body.length - 32) % 2 = 0) :
    splitAddressAndChains 0x03 body =
      .ok { addressBytes := body.take 32, chainIds := parseTail (body.drop 32) } := by
  simp [splitAddressAndChains, h32, hev]

theorem split_heuristic (p : Nat) (body : List Nat)
    (h1 : p ≠ 0x01) (h2 : p ≠ 0x02) (h4 : p ≠ 0x04) (h6 : p ≠ 0x06)
    (hfast : ¬(p = 0x03 ∧ 32 ≤ body.length ∧ (body.length - 32) % 2 = 0)) :
    splitAddressAndChains p body =
      .ok { addressBytes := body.take (heuristicScan body body.length []).1,
            chainIds := (heuristicScan body body.length []).2.reverse } := by
  simp [splitAddressAndChains, h1, h2, h4, h6, hfast]

theorem split_error_cases (p : Nat) (body : List Nat) (e : DecodeErr)
    (h : splitAddressAndChains p body = .error e) :
    e = .AddressLengthMismatch ∨ e = .MalformedChainTail := by
  unfold splitAddressAndChains at h
  repeat' split at h
  all_goals try simp_all
  all_goals (split_ifs at h <;> simp_all)

theorem decode_split_error (E : Encoders) (raw : List Char) (p : Nat)
    (body : List Nat) (err : DecodeErr)
    (h : splitAddressAndChains p body = .error err) :
    decodeGasZipBytes E raw (p :: body) = .error err := by
  simp [decodeGasZipBytes, h]

theorem decode_self (E : Encoders) (raw : List Char) (body : List Nat)
    (r : SplitResult) (h : splitAddressAndChains 0x01 body = .ok r) :
    decodeGasZipBytes E raw (0x01 :: body) =
      .ok { type := .SELF, raw := raw, prefixHex := hexByteStr 0x01,
            destination := {}, chainIds := r.chainIds.map annotateChainId,
            leftoversHex := leftoversHexOf r.leftovers } := by
  simp [decodeGasZipBytes, h]

theorem decode_evm (E : Encoders) (raw : List Char) (body : List Nat)
    (r : SplitResult) (h : splitAddressAndChains 0x02 body = .ok r)
    (hlen : r.addressBytes.length = 20) :
    decodeGasZipBytes E raw (0x02 :: body) =
      .ok { type := .EVM, raw := raw, prefixHex := hexByteStr 0x02,
            destination := { evm := some (bytesToHex r.addressBytes) },
            chainIds := r.chainIds.map annotateChainId,
            leftoversHex := leftoversHexOf r.leftovers } := by
  simp [decodeGasZipBytes, h, hlen]

theorem decode_move (E : Encoders) (raw : List Char) (body : List Nat)
    (r : SplitResult) (h : splitAddressAndChains 0x04 body = .ok r)
    (hlen : r.addressBytes.length = 32) :
    decodeGasZipBytes E raw (0x04 :: body) =
      .ok { type := .MOVE, raw := raw, prefixHex := hexByteStr 0x04,
            destination := { move := some (bytesToHex r.addressBytes) },
            chainIds := r.chainIds.map annotateChainId,
            leftoversHex := leftoversHexOf r.leftovers } := by
  simp [decodeGasZipBytes, h, hlen]

theorem decode_initia (E : Encoders) (raw : List Char) (body : List Nat)
    (r : SplitResult) (h : splitAddressAndChains 0x06 body = .ok r)
    (hlen : r.addressBytes.length = 20) :
    decodeGasZipBytes E raw (0x06 :: body) =
      .ok { type := .INITIA, raw := raw, prefixHex := hexByteStr 0x06,
            destination := { initia := E.bech32initEncode r.addressBytes,
                             initiaHex := some (bytesToHex r.addressBytes) },
            chainIds := r.chainIds.map annotateChainId,
            leftoversHex := leftoversHexOf r.leftovers } := by
  simp [decodeGasZipBytes, h, hlen]

theorem decode_base58 (E : Encoders) (raw : List Char) (body : List Nat)
    (r : SplitResult) (h : splitAddressAndChains 0x03 body = .ok r) :
    decodeGasZipBytes E raw (0x03 :: body) =
      .ok { type := .BASE58, raw := raw, prefixHex := hexByteStr 0x03,
            destination := { base58 := some ((E.bs58encode r.addressBytes).getD "")
                             base58Hex := some (bytesToHex r.addressBytes)
                             solanaLike := some (r.addressBytes.length == 32) },
            chainIds := r.chainIds.map annotateChainId,
            leftoversHex := leftoversHexOf r.leftovers } := by
  simp [decodeGasZipBytes, h]

theorem decode_xrp (E : Encoders) (raw : List Char) (body : List Nat)
    (r : SplitResult) (h : splitAddressAndChains 0x05 body = .ok r) :
    decodeGasZipBytes E raw (0x05 :: body) =
      .ok { type := .XRP, raw := raw, prefixHex := hexByteStr 0x05,
            destination := { xrp := some ((E.xrpb58encode r.addressBytes).getD "") },
            chainIds := r.chainIds.map annotateChainId,
            leftoversHex := leftoversHexOf r.leftovers } := by
  simp [decodeGasZipBytes, h]

theorem decode_unknown (E : Encoders) (raw : List Char) (p : Nat)
    (body : List Nat) (r : SplitResult)
    (h1 : p ≠ 0x01) (h2 : p ≠ 0x02) (h3 : p ≠ 0x03) (h4 : p ≠ 0x04)
    (h5 : p ≠ 0x05) (h6 : p ≠ 0x06)
    (h : splitAddressAndChains p body = .ok r) :
    decodeGasZipBytes E raw (p :: body) =
      .ok { type := .UNKNOWN, raw := raw, prefixHex := hexByteStr p,
            destination := {}, chainIds := r.chainIds.map annotateChainId,
            leftoversHex := leftoversHexOf r.leftovers } := by
  simp [decodeGasZipBytes, h, h1, h2, h3, h4, h5, h6]

theorem decode_evm_badlen (E : Encoders) (raw : List Char) (body : List Nat)
    (r : SplitResult) (h : splitAddressAndChains 0x02 body = .ok r)
    (hlen : r.addressBytes.length ≠ 20) :
    decodeGasZipBytes E raw (0x02 :: body) = .error .AddressLengthMismatch := by
  simp [decodeGasZipBytes, h, hlen]

theorem decode_move_badlen (E : Encoders) (raw : List Char) (body : List Nat)
    (r : SplitResult) (h : splitAddressAndChains 0x04 body = .ok r)
    (hlen : r.addressBytes.length ≠ 32) :
    decodeGasZipBytes E raw (0x04 :: body) = .error .AddressLengthMismatch := by
  simp [decodeGasZipBytes, h, hlen]

theorem decode_initia_badlen (E : Encoders) (raw : List Char) (body : List Nat)
    (r : SplitResult) (h : splitAddressAndChains 0x06 body = .ok r)
    (hlen : r.addressBytes.length ≠ 20) :
    decodeGasZipBytes E raw (0x06 :: body) = .error .AddressLengthMismatch := by
  simp [decodeGasZipBytes, h, hlen]

theorem decodeBytes_ne_invalidHex (E : Encoders) (raw : List Char)
    (data : List Nat) :
    decodeGasZipBytes E raw data ≠ .error .InvalidHexEncoding := by
  cases data with
  | nil => simp [decodeGasZipBytes]
  | cons p body =>
    cases hsplit : splitAddressAndChains p body with
    | error e =>
      rw [decode_split_error E raw p body e hsplit]
      rcases split_error_cases p body e hsplit with rfl | rfl <;> simp
    | ok r =>
      by_cases h1 : p = 1
      · subst h1; rw [decode_self E raw body r hsplit]; simp
      · by_cases h2 : p = 2
        · subst h2
          by_cases hlen : r.addressBytes.length = 20
          · rw [decode_evm E raw body r hsplit hlen]; simp
          · rw [decode_evm_badlen E raw body r hsplit hlen]; simp
        · by_cases h3 : p = 3
          · subst h3; rw [decode_base58 E raw body r hsplit]; simp
          · by_cases h4 : p = 4
            · subst h4
              by_cases hlen : r.addressBytes.length = 32
              · rw [decode_move E raw body r hsplit hlen]; simp
              · rw [decode_move_badlen E raw body r hsplit hlen]; simp
            · by_cases h5 : p = 5
              · subst h5; rw [decode_xrp E raw body r hsplit]; simp
              · by_cases h6 : p = 6
                · subst h6
                  by_cases hlen : r.addressBytes.length = 20
                  · rw [decode_initia E raw body r hsplit hlen]; simp
                  · rw [decode_initia_badlen E raw body r hsplit hlen]; simp
                · rw [decode_unknown E raw p body r h1 h2 h3 h4 h5 h6 hsplit]
                  simp

theorem map_annotate_id (l : List Nat) :
    (l.map annotateChainId).map ChainIdEntry.id = l := by
  induction l with
  | nil => rfl
  | cons a t ih => simp [annotateChainId, ih]

theorem dropLast_reverse_eq_tail_reverse (l : List Nat) :
    l.reverse.dropLast = l.tail.reverse := by
  cases l with
  | nil => rfl
  | cons a t => simp [List.reverse_cons, List.dropLast_concat]

theorem startsWith0x_shape (input : List Char) (h : startsWith0x input = true) :
    ∃ rest, input = '0' :: 'x' :: rest := by
  rcases input with _ | ⟨c1, _ | ⟨c2, rest⟩⟩
  · simp [startsWith0x] at h
  · simp [startsWith0x] at h
  · simp only [startsWith0x, decide_eq_true_eq] at h
    obtain ⟨rfl, rfl⟩ := h
    exact ⟨rest, rfl⟩

theorem hexToBytes_even_ok (input : List Char) (hsw : startsWith0x input = true)
    (hev : input.length % 2 = 0) :
    hexToBytes input = .ok (hexPairsToBytes (input.drop 2)) := by
  obtain ⟨rest, rfl⟩ := startsWith0x_shape input hsw
  simp only [List.length_cons] at hev
  simp [hexToBytes, startsWith0x, Nat.add_mod]
  omega

theorem decode_fixed_exists_ok (E : Encoders) (raw : List Char) (p L : Nat)
    (hpL : (p, L) ∈ [((0x01 : Nat), (0 : Nat)), (0x02, 20), (0x04, 32), (0x06, 20)])
    (body : List Nat) (hge : L ≤ body.length)
    (hev : (body.length - L) % 2 = 0) :
    ∃ res, decodeGasZipBytes E raw (p :: body) = .ok res := by
  have hsplit : splitAddressAndChains p body =
      .ok { addressBytes := body.take L, chainIds := parseTail (body.drop L) } := by
    rw [split_fixed p L hpL body, if_neg (by omega), if_neg (by omega)]
  have htake : (body.take L).length = L := by simp; omega
  simp only [List.mem_cons, Prod.mk.injEq, List.not_mem_nil, or_false] at hpL
  rcases hpL with ⟨rfl, rfl⟩ | ⟨rfl, rfl⟩ | ⟨rfl, rfl⟩ | ⟨rfl, rfl⟩
  · exact ⟨_, decode_self E raw body _ hsplit⟩
  · exact ⟨_, decode_evm E raw body _ hsplit htake⟩
  · exact ⟨_, decode_move E raw body _ hsplit htake⟩
  · exact ⟨_, decode_initia E raw body _ hsplit htake⟩

/-! ## Claims -/

/-- C1: for every fixed-length prefix byte `p ∈ {0x01, 0x02, 0x04, 0x06}`
with fixed address length `L ∈ {0, 20, 32, 20}` and every body of length
`L + 2k`, the splitter succeeds with `addressBytes = body[0:L]` and exactly
`k` chain ids, the `i`-th being the big-endian uint16 at tail offset `2i`
(left-to-right original order), and the full decode succeeds with no error. -/
theorem c1_fixed_prefix_decode_ok (p L : Nat)
    (hpL : (p, L) ∈ [((0x01 : Nat), (0 : Nat)), (0x02, 20), (0x04, 32), (0x06, 20)])
    (body : List Nat) (k : Nat) (hlen : body.length = L + 2 * k) :
    splitAddressAndChains p body =
      .ok { addressBytes := body.take L, chainIds := parseTail (body.drop L) }
    ∧ (parseTail (body.drop L)).length = k
    ∧ (∀ i, i < k →
        (parseTail (body.drop L))[i]? = some (readU16BE (body.drop L) (2 * i)))
    ∧ ∀ (E : Encoders) (raw : List Char),
        ∃ res, decodeGasZipBytes E raw (p :: body) = .ok res := by
  have hdroplen : (body.drop L).length = 2 * k := by simp; omega
  refine ⟨?_, ?_, ?_, ?_⟩
  · rw [split_fixed p L hpL body, if_neg (by omega), if_neg (by omega)]
  · rw [parseTail_length, hdroplen]; omega
  · intro i hi
    exact parseTail_getElem? _ i (by rw [hdroplen]; omega)
  · intro E raw
    exact decode_fixed_exists_ok E raw p L hpL body (by omega) (by omega)

/-- Witness for C1 at `p = 0x02`, `L = 20`, `k = 1`. -/
theorem c1_fixed_prefix_decode_ok_witness :
    (List.replicate 20 17 ++ [0, 54] : List Nat).length = 20 + 2 * 1 ∧
    ∃ res, decodeGasZipBytes trivialEncoders []
        (0x02 :: (List.replicate 20 17 ++ [0, 54])) = .ok res :=
  ⟨by decide,
   (c1_fixed_prefix_decode_ok 0x02 20 (by decide) (List.replicate 20 17 ++ [0, 54])
      1 (by decide)).2.2.2 trivialEncoders []⟩

/-- C2: on the heuristic path (prefix 0x05 always; prefix 0x03 exactly when
the deterministic fast-path condition fails) the split is computed by the
spec's backward scan: while `end - 2 >= 1`, accept `v = readUint16BE(body,
end-2)` iff `v` is a registry key or nothing was accepted yet, else stop;
`addressBytes = body[0:end]`, accumulator reversed into original order. -/
theorem c2_heuristic_is_spec_scan (p : Nat) (body : List Nat)
    (hp : p = 0x05 ∨
      (p = 0x03 ∧ ¬(32 ≤ body.length ∧ (body.length - 32) % 2 = 0))) :
    splitAddressAndChains p body =
      .ok { addressBytes := (specVariableSplit body).1,
            chainIds := (specVariableSplit body).2 } := by
  have hscan := heuristicScan_eq_spec body body.length []
  rcases hp with rfl | ⟨rfl, hfast⟩
  · rw [split_heuristic 0x05 body (by omega) (by omega) (by omega) (by omega)
      (by simp)]
    simp [specVariableSplit, hscan]
  · rw [split_heuristic 0x03 body (by omega) (by omega) (by omega) (by omega)
      (by simpa using hfast)]
    simp [specVariableSplit, hscan]

/-- Witness for C2 at `p = 0x03` with the one-byte body `[0xaa]`. -/
theorem c2_heuristic_is_spec_scan_witness :
    ¬(32 ≤ ([170] : List Nat).length ∧ (([170] : List Nat).length - 32) % 2 = 0) ∧
    splitAddressAndChains 0x03 [170] =
      .ok { addressBytes := (specVariableSplit [170]).1,
            chainIds := (specVariableSplit [170]).2 } :=
  ⟨by decide, c2_heuristic_is_spec_scan 0x03 [170] (Or.inr ⟨rfl, by decide⟩)⟩

/-- C3 counterexample: `"0xzz"` is not valid hex by the spec's input contract,
yet the decode operation succeeds rather than failing with
`InvalidHexEncoding` (JS `parseInt('zz', 16)` is `NaN`, stored as byte 0). -/
theorem c3_nonhex_accepted_counterexample :
    validHexInput ['0', 'x', 'z', 'z'] = false ∧
    (decodeGasZipCalldata trivialEncoders ['0', 'x', 'z', 'z']).toOption.isSome
      = true := by
  exact ⟨by decide, by decide⟩

/-- C3 (amended): the decode operation fails with `InvalidHexEncoding` iff the
input does not start with `0x` or has odd length; non-hex characters after a
well-formed prefix are NOT rejected (each 2-character group is parsed
best-effort, unparsable groups becoming byte 0). -/
theorem c3_invalid_hex_iff (E : Encoders) (input : List Char) :
    decodeGasZipCalldata E input = .error .InvalidHexEncoding ↔
      ¬(startsWith0x input = true ∧ input.length % 2 = 0) := by
  unfold decodeGasZipCalldata
  split
  · rename_i hcond
    rw [hexToBytes_even_ok input hcond.1 hcond.2]
    simp [decodeBytes_ne_invalidHex, hcond.1, hcond.2]
  · rename_i hcond
    simp [hcond]

/-- C4 (amended): for any prefix byte outside `{0x01..0x06}` the decode
operation never throws and yields kind UNKNOWN with an empty destination; but
the leftover field is never populated (always absent) — the body is instead
run through the variable-length heuristic, whose chain ids appear in
`chainIds` while the address part is discarded. -/
theorem c4_unknown_prefix_no_throw (E : Encoders) (raw : List Char) (p : Nat)
    (body : List Nat) (hp : p ∉ ([1, 2, 3, 4, 5, 6] : List Nat)) :
    ∃ res, decodeGasZipBytes E raw (p :: body) = .ok res
      ∧ res.type = .UNKNOWN
      ∧ res.destination = {}
      ∧ res.leftoversHex = none
      ∧ res.chainIds =
          ((heuristicScan body body.length []).2.reverse).map annotateChainId := by
  simp only [List.mem_cons, List.not_mem_nil, or_false, not_or] at hp
  obtain ⟨h1, h2, h3, h4, h5, h6⟩ := hp
  have hsplit := split_heuristic p body h1 h2 h4 h6 (by simp [h3])
  exact ⟨_, decode_unknown E raw p body _ h1 h2 h3 h4 h5 h6 hsplit,
    rfl, rfl, rfl, rfl⟩

/-- Witness for C4 (amended) at prefix `0x07`, body `[0xaa, 0x00, 0x36]`. -/
theorem c4_unknown_prefix_no_throw_witness :
    (7 : Nat) ∉ ([1, 2, 3, 4, 5, 6] : List Nat) ∧
    ∃ res, decodeGasZipBytes trivialEncoders [] (7 :: [170, 0, 54]) = .ok res
      ∧ res.type = .UNKNOWN
      ∧ res.destination = {}
      ∧ res.leftoversHex = none
      ∧ res.chainIds =
          ((heuristicScan [170, 0, 54] ([170, 0, 54] : List Nat).length []).2.reverse).map
            annotateChainId :=
  ⟨by decide, c4_unknown_prefix_no_throw trivialEncoders [] 7 [170, 0, 54] (by decide)⟩

/-- C4 counterexample: decoding prefix `0x07` with body `aa0036` yields an
UNKNOWN result whose leftover field is absent — not the full body, as the
claim states — and whose `chainIds` were parsed by the heuristic (here
nonempty), showing the body is not simply preserved. -/
theorem c4_leftover_empty_counterexample :
    (decodeGasZipBytes trivialEncoders [] [7, 170, 0, 54]).toOption.map
        (fun r => (r.type, r.leftoversHex, r.chainIds.map ChainIdEntry.id)) =
      some (.UNKNOWN, none, [54]) := by decide

/-- C5: for prefix 0x03 with `body.length ≥ 32` and even `body.length - 32`,
the deterministic fast path wins over the heuristic: address = first 32 bytes
(`solanaLike = true`), remainder parsed as consecutive big-endian uint16 ids
left to right; in particular a 34-byte body whose final 2 bytes are a known
registry id yields exactly one chain id equal to that value. -/
theorem c5_base58_fast_path (E : Encoders) (raw : List Char) (body : List Nat)
    (h32 : 32 ≤ body.length) (hev : (body.length - 32) % 2 = 0) :
    splitAddressAndChains 0x03 body =
      .ok { addressBytes := body.take 32, chainIds := parseTail (body.drop 32) }
    ∧ (body.take 32).length = 32
    ∧ (∀ i, 2 * i + 1 < body.length - 32 →
        (parseTail (body.drop 32))[i]? = some (readU16BE (body.drop 32) (2 * i)))
    ∧ (∃ res, decodeGasZipBytes E raw (0x03 :: body) = .ok res
        ∧ res.type = .BASE58
        ∧ res.destination.solanaLike = some true
        ∧ res.destination.base58Hex = some (bytesToHex (body.take 32))
        ∧ res.chainIds.map ChainIdEntry.id = parseTail (body.drop 32))
    ∧ (body.length = 34 → isKnownChain (readU16BE body 32) = true →
        ∃ res, decodeGasZipBytes E raw (0x03 :: body) = .ok res
          ∧ res.chainIds.map ChainIdEntry.id = [readU16BE body 32]
          ∧ res.destination.solanaLike = some true) := by
  have hsplit := split_fast body h32 hev
  have htake : (body.take 32).length = 32 := by simp; omega
  have hdec := decode_base58 E raw body _ hsplit
  have hsolana : (((body.take 32).length == 32) : Bool) = true := by
    simp [htake]
  refine ⟨hsplit, htake, ?_, ?_, ?_⟩
  · intro i hi
    exact parseTail_getElem? _ i (by simp; omega)
  · refine ⟨_, hdec, rfl, by simpa using hsolana, rfl, map_annotate_id _⟩
  · intro h34 _hknown
    obtain ⟨a, b, hab⟩ : ∃ a b, body.drop 32 = [a, b] := by
      rw [← List.length_eq_two]
      simp
      omega
    refine ⟨_, hdec, ?_, by simpa using hsolana⟩
    have hread : readU16BE body 32 = a <<< 8 ||| b := by
      have := readU16BE_drop body 32 0
      rw [hab] at this
      simpa [readU16BE_zero] using this.symm
    rw [map_annotate_id, hab, hread]
    rfl

/-- Witness for C5 at a 34-byte body: 32 zero bytes then `0x0036` (id 54). -/
theorem c5_base58_fast_path_witness :
    32 ≤ (List.replicate 32 0 ++ [0, 54] : List Nat).length ∧
    ((List.replicate 32 0 ++ [0, 54] : List Nat).length - 32) % 2 = 0 ∧
    splitAddressAndChains 0x03 (List.replicate 32 0 ++ [0, 54]) =
      .ok { addressBytes := (List.replicate 32 0 ++ [0, 54]).take 32,
            chainIds := parseTail ((List.replicate 32 0 ++ [0, 54]).drop 32) } :=
  ⟨by decide, by decide,
   (c5_base58_fast_path trivialEncoders [] (List.replicate 32 0 ++ [0, 54])
      (by decide) (by decide)).1⟩

/-- C6: for every fixed-length prefix `p ∈ {0x01, 0x02, 0x04, 0x06}` with
fixed length `L`: the decode fails with `AddressLengthMismatch` iff
`body.length < L`; when `body.length ≥ L` it fails with `MalformedChainTail`
iff `body.length - L` is odd; in particular `0x02` followed by nineteen bytes
fails with `AddressLengthMismatch`. -/
theorem c6_fixed_prefix_error_iff (E : Encoders) (raw : List Char) (p L : Nat)
    (hpL : (p, L) ∈ [((0x01 : Nat), (0 : Nat)), (0x02, 20), (0x04, 32), (0x06, 20)])
    (body : List Nat) :
    (decodeGasZipBytes E raw (p :: body) = .error .AddressLengthMismatch ↔
      body.length < L)
    ∧ (L ≤ body.length →
        (decodeGasZipBytes E raw (p :: body) = .error .MalformedChainTail ↔
          (body.length - L) % 2 = 1))
    ∧ ∀ bs : List Nat, bs.length = 19 →
        decodeGasZipBytes E raw (0x02 :: bs) = .error .AddressLengthMismatch := by
  refine ⟨?_, ?_, ?_⟩
  · rcases Nat.lt_or_ge body.length L with hlt | hge
    · have hsplit : splitAddressAndChains p body = .error .AddressLengthMismatch := by
        rw [split_fixed p L hpL body, if_pos hlt]
      rw [decode_split_error E raw p body _ hsplit]
      simp [hlt]
    · by_cases hodd : (body.length - L) % 2 = 1
      · have hsplit : splitAddressAndChains p body = .error .MalformedChainTail := by
          rw [split_fixed p L hpL body, if_neg (by omega), if_pos (by omega)]
        rw [decode_split_error E raw p body _ hsplit]
        simp
        omega
      · obtain ⟨res, hres⟩ :=
          decode_fixed_exists_ok E raw p L hpL body hge (by omega)
        rw [hres]
        simp
        omega
  · intro hge
    by_cases hodd : (body.length - L) % 2 = 1
    · have hsplit : splitAddressAndChains p body = .error .MalformedChainTail := by
        rw [split_fixed p L hpL body, if_neg (by omega), if_pos (by omega)]
      rw [decode_split_error E raw p body _ hsplit]
      simp [hodd]
    · obtain ⟨res, hres⟩ :=
        decode_fixed_exists_ok E raw p L hpL body hge (by omega)
      rw [hres]
      simp
      omega
  · intro bs hbs
    have hsplit : splitAddressAndChains 0x02 bs = .error .AddressLengthMismatch := by
      rw [split_fixed 0x02 20 (by simp) bs, if_pos (by omega)]
    exact decode_split_error E raw 0x02 bs _ hsplit

/-- Witness for C6 at `p = 0x02`, `L = 20`, body of nineteen `0x01` bytes. -/
theorem c6_fixed_prefix_error_iff_witness :
    ((0x02 : Nat), (20 : Nat)) ∈
      [((0x01 : Nat), (0 : Nat)), (0x02, 20), (0x04, 32), (0x06, 20)] ∧
    (decodeGasZipBytes trivialEncoders [] (0x02 :: List.replicate 19 1) =
        .error .AddressLengthMismatch ↔ (List.replicate 19 1 : List Nat).length < 20) :=
  ⟨by decide,
   (c6_fixed_prefix_error_iff trivialEncoders [] 0x02 20 (by decide)
      (List.replicate 19 1)).1⟩

/-- C7: the variable-length heuristic never consumes the entire body: for
prefix 0x05 with `body.length ≥ 3`, whatever the content, the split succeeds
and the resulting address byte length is at least 1. -/
theorem c7_heuristic_leaves_address (body : List Nat) (h3 : 3 ≤ body.length) :
    ∃ r, splitAddressAndChains 0x05 body = .ok r ∧ 1 ≤ r.addressBytes.length := by
  have hsplit := split_heuristic 0x05 body (by omega) (by omega) (by omega)
    (by omega) (by simp)
  refine ⟨_, hsplit, ?_⟩
  have hpos := heuristicScan_fst_pos body body.length [] (by omega)
  simp only [List.length_take]
  omega

/-- Witness for C7 at the all-zero 3-byte body. -/
theorem c7_heuristic_leaves_address_witness :
    3 ≤ ([0, 0, 0] : List Nat).length ∧
    ∃ r, splitAddressAndChains 0x05 [0, 0, 0] = .ok r ∧ 1 ≤ r.addressBytes.length :=
  ⟨by decide, c7_heuristic_leaves_address [0, 0, 0] (by decide)⟩

/-- C8: address-string encoding failures are never fatal — whenever the
base58 / Ripple-base58 / bech32 oracle fails (throws) on the address bytes,
the BASE58 / XRP / INITIA decode still returns a complete result, the hex
form is retained (BASE58 and INITIA) and the human-readable string is empty
(BASE58, XRP) or absent (INITIA); no error propagates. -/
theorem c8_encoding_failure_nonfatal (E : Encoders) (raw : List Char) :
    (∀ (body : List Nat) (pr : SplitResult),
        splitAddressAndChains 0x03 body = .ok pr →
        E.bs58encode pr.addressBytes = none →
        ∃ res, decodeGasZipBytes E raw (0x03 :: body) = .ok res
          ∧ res.type = .BASE58
          ∧ res.destination.base58 = some ""
          ∧ res.destination.base58Hex = some (bytesToHex pr.addressBytes))
    ∧ (∀ (body : List Nat) (pr : SplitResult),
        splitAddressAndChains 0x05 body = .ok pr →
        E.xrpb58encode pr.addressBytes = none →
        ∃ res, decodeGasZipBytes E raw (0x05 :: body) = .ok res
          ∧ res.type = .XRP
          ∧ res.destination.xrp = some "")
    ∧ (∀ body : List Nat, 20 ≤ body.length → (body.length - 20) % 2 = 0 →
        E.bech32initEncode (body.take 20) = none →
        ∃ res, decodeGasZipBytes E raw (0x06 :: body) = .ok res
          ∧ res.type = .INITIA
          ∧ res.destination.initia = none
          ∧ res.destination.initiaHex = some (bytesToHex (body.take 20))) := by
  refine ⟨?_, ?_, ?_⟩
  · intro body pr hsplit henc
    exact ⟨_, decode_base58 E raw body pr hsplit, rfl, by simp [henc], rfl⟩
  · intro body pr hsplit henc
    exact ⟨_, decode_xrp E raw body pr hsplit, rfl, by simp [henc]⟩
  · intro body hge hev henc
    have hsplit : splitAddressAndChains 0x06 body =
        .ok { addressBytes := body.take 20, chainIds := parseTail (body.drop 20) } := by
      rw [split_fixed 0x06 20 (by simp) body, if_neg (by omega), if_neg (by omega)]
    have htake : (body.take 20).length = 20 := by simp; omega
    exact ⟨_, decode_initia E raw body _ hsplit htake, rfl, by simp [henc], rfl⟩

/-- Witness for C8: the all-failing oracle on a BASE58 one-byte body. -/
theorem c8_encoding_failure_nonfatal_witness :
    splitAddressAndChains 0x03 [170] =
      .ok { addressBytes := [170], chainIds := [] } ∧
    trivialEncoders.bs58encode [170] = none ∧
    ∃ res, decodeGasZipBytes trivialEncoders [] (0x03 :: [170]) = .ok res
      ∧ res.type = .BASE58
      ∧ res.destination.base58 = some ""
      ∧ res.destination.base58Hex = some (bytesToHex [170]) :=
  ⟨by rfl, rfl,
   (c8_encoding_failure_nonfatal trivialEncoders []).1 [170]
      { addressBytes := [170], chainIds := [] } (by rfl) rfl⟩

/-- C9: in every chain-id list produced by the variable-length heuristic
(prefix 0x05, or 0x03 off the fast path), every entry except the last (the
rightmost in the body, accepted unconditionally) is present in the Chain
Registry. -/
theorem c9_heuristic_known_except_last (p : Nat) (body : List Nat)
    (hp : p = 0x05 ∨
      (p = 0x03 ∧ ¬(32 ≤ body.length ∧ (body.length - 32) % 2 = 0)))
    (r : SplitResult) (hsplit : splitAddressAndChains p body = .ok r) :
    ∀ v ∈ r.chainIds.dropLast, isKnownChain v = true := by
  have hr : r.chainIds = (heuristicScan body body.length []).2.reverse := by
    rcases hp with rfl | ⟨rfl, hfast⟩
    · rw [split_heuristic 0x05 body (by omega) (by omega) (by omega) (by omega)
        (by simp)] at hsplit
      injection hsplit with h
      rw [← h]
    · rw [split_heuristic 0x03 body (by omega) (by omega) (by omega) (by omega)
        (by simpa using hfast)] at hsplit
      injection hsplit with h
      rw [← h]
  have htail := heuristicScan_tail_known body body.length [] (by simp)
  intro v hv
  rw [hr, dropLast_reverse_eq_tail_reverse, List.mem_reverse] at hv
  exact htail v hv

/-- Witness for C9 at `p = 0x05`, body `[0xaa, 0x00, 0x36]` (split:
address `[0xaa]`, chain ids `[54]`). -/
theorem c9_heuristic_known_except_last_witness :
    splitAddressAndChains 0x05 [170, 0, 54] =
      .ok { addressBytes := [170], chainIds := [54] } ∧
    ∀ v ∈ ({ addressBytes := [170], chainIds := [54] } : SplitResult).chainIds.dropLast,
      isKnownChain v = true :=
  ⟨by rfl,
   c9_heuristic_known_except_last 0x05 [170, 0, 54] (Or.inl rfl)
      { addressBytes := [170], chainIds := [54] } (by rfl)⟩

/-- C10: for prefix 0x03 (off the fast path, which a short body guarantees)
or 0x05 with body shorter than 3 bytes — including the bare payloads `0x03`
and `0x05` with empty body — the decode succeeds with zero chain ids and the
whole (possibly empty) body as address bytes; no minimum address length is
enforced. -/
theorem c10_variable_short_body_ok (E : Encoders) (raw : List Char) (p : Nat)
    (body : List Nat) (hp : p = 0x03 ∨ p = 0x05) (hlen : body.length < 3) :
    splitAddressAndChains p body = .ok { addressBytes := body, chainIds := [] }
    ∧ ∃ res, decodeGasZipBytes E raw (p :: body) = .ok res ∧ res.chainIds = [] := by
  have hscan : heuristicScan body body.length [] = (body.length, []) :=
    heuristicScan_lt3 body body.length [] hlen
  have hsplit : splitAddressAndChains p body =
      .ok { addressBytes := body, chainIds := [] } := by
    rcases hp with rfl | rfl
    · rw [split_heuristic 0x03 body (by omega) (by omega) (by omega) (by omega)
        (by omega)]
      simp [hscan]
    · rw [split_heuristic 0x05 body (by omega) (by omega) (by omega) (by omega)
        (by simp)]
      simp [hscan]
  refine ⟨hsplit, ?_⟩
  rcases hp with rfl | rfl
  · exact ⟨_, decode_base58 E raw body _ hsplit, by simp⟩
  · exact ⟨_, decode_xrp E raw body _ hsplit, by simp⟩

/-- Witness for C10 at the bare payload `0x03` (empty body). -/
theorem c10_variable_short_body_ok_witness :
    (([] : List Nat).length < 3) ∧
    (splitAddressAndChains 0x03 [] = .ok { addressBytes := [], chainIds := [] }
      ∧ ∃ res, decodeGasZipBytes trivialEncoders [] (0x03 :: []) = .ok res
          ∧ res.chainIds = []) :=
  ⟨by decide,
   c10_variable_short_body_ok trivialEncoders [] 0x03 [] (Or.inl rfl) (by decide)⟩

end GasZip
